import Mathlib

/-!
Shallow embedding of the Telemetry Simulation & Alert Reconciliation Engine
of the CSC480-CAPSTONE logistics repository.

The embedding covers:
* `services/external_apis.py`, class `MockInternalDataProvider`: per-facility
  simulated state and its time-based evolution (`_initialize_facility_state`,
  `_update_facility_state` and its helper updates, `get_facility_metrics`).
* `database/logic.py`: `retry_db_operation` and `AlertsDB.check_existing_alert`
  (with the SQL text of `CHECK_EXISTING_ALERT` from `database/sql_queries.py`).
* `services/background_services.py`, class `DataAggregator`: the alert checking
  passes (`_check_productivity_alerts`, `_check_equipment_alerts`,
  `_check_capacity_alerts`, `_resolve_equipment_alerts_for_facility`,
  `sync_alerts_with_current_data`) and the metrics collection fallback path
  (`_collect_facility_metrics`, `_batch_insert_metrics`).

Python floats are embedded as exact rationals (`ℚ`), Python ints as `ℤ`/`ℕ`.
Random draws (`random.random()`, `random.uniform`, `random.randint`,
`random.choice`) are passed in explicitly as oracle values, with
well-formedness predicates stating the ranges the library guarantees.
`int(x)` (Python truncation toward zero) is embedded as `pytrunc`.
Timestamps are embedded as rational hours on a single clock; an alert's
`created_at > datetime('now', '-1 hour')` SQL condition becomes a comparison
of the alert's age in hours against the window.
-/

attribute [local semireducible] Rat.mul Rat.add Rat.sub Rat.inv Rat.ofScientific

/-- Python `int(x)`: truncation toward zero. -/
def pytrunc (q : ℚ) : ℤ :=
  q.num.tdiv q.den

theorem pytrunc_eq_floor (q : ℚ) (hq : 0 ≤ q) : pytrunc q = ⌊q⌋ := by
  rw [Rat.floor_def, pytrunc,
    Int.tdiv_eq_ediv (Rat.num_nonneg.mpr hq) (Int.natCast_nonneg q.den)]

theorem pytrunc_nonneg (q : ℚ) (hq : 0 ≤ q) : 0 ≤ pytrunc q := by
  rw [pytrunc_eq_floor q hq]
  exact Int.floor_nonneg.mpr hq

/-- Facility class, source strings "hub" / "station" (any other string behaves
like "station" in every branch of the source, so a two-valued type is exact). -/
inductive FacilityType where
  | hub
  | station
deriving DecidableEq, Repr

/-- Equipment status strings assigned or consulted by the provider:
"Operational", "Maintenance", "Down", "Reduced Capacity". -/
inductive EquipmentStatus where
  | operational
  | maintenance
  | down
  | reducedCapacity
deriving DecidableEq, Repr

/-- One facility's simulated state: the per-facility dict stored in
`MockInternalDataProvider.facility_states`. -/
structure FacilityState where
  staffing_level : ℤ
  productivity_rate : ℚ
  equipment_status : EquipmentStatus
  delivery_timeliness : ℚ
  downtime_minutes : ℤ
  equipment_change_cooldown : ℚ
  staffing_trend : ℚ
  productivity_trend : ℚ
deriving DecidableEq, Repr

/-- Oracle for the random draws of `_update_equipment_status`: the two
`random.random()` rolls and one `random.uniform` cooldown draw per branch. -/
structure EquipRand where
  roll : ℚ
  branch : ℚ
  cdOpToMaint : ℚ
  cdOpToDown : ℚ
  cdMaintToOp : ℚ
  cdDownToOp : ℚ
  cdDownToMaint : ℚ
deriving DecidableEq, Repr

/-- Ranges `random.random()` and `random.uniform(a, b)` guarantee for the
draws consumed by `_update_equipment_status`. -/
def EquipRand.WF (r : EquipRand) : Prop :=
  0 ≤ r.roll ∧ r.roll < 1 ∧ 0 ≤ r.branch ∧ r.branch < 1 ∧
  4 ≤ r.cdOpToMaint ∧ r.cdOpToMaint ≤ 12 ∧
  1 ≤ r.cdOpToDown ∧ r.cdOpToDown ≤ 6 ∧
  24 ≤ r.cdMaintToOp ∧ r.cdMaintToOp ≤ 72 ∧
  12 ≤ r.cdDownToOp ∧ r.cdDownToOp ≤ 48 ∧
  2 ≤ r.cdDownToMaint ∧ r.cdDownToMaint ≤ 8

/-- Oracle for the random draws of `_update_staffing_level`: the
`random.random()` shift-change roll and the `random.uniform` trend delta. -/
structure StaffRand where
  roll : ℚ
  trendDelta : ℚ
deriving DecidableEq, Repr

/-- Oracle for one `_update_facility_state` call. -/
structure UpdateRand where
  equip : EquipRand
  staff : StaffRand
deriving DecidableEq, Repr

/-- `_update_equipment_status(state, hours_elapsed)`: Markov transition of
`equipment_status`, drawing a fresh cooldown on each transition. -/
def update_equipment_status (r : EquipRand) (hours_elapsed : ℚ)
    (s : FacilityState) : FacilityState :=
  match s.equipment_status with
  | .operational =>
      if r.roll < 0.001 * hours_elapsed then
        if r.branch < 0.7 then
          { s with equipment_status := .maintenance,
                   equipment_change_cooldown := r.cdOpToMaint }
        else
          { s with equipment_status := .down,
                   equipment_change_cooldown := r.cdOpToDown }
      else s
  | .maintenance =>
      if r.roll < 0.15 * hours_elapsed then
        { s with equipment_status := .operational,
                 equipment_change_cooldown := r.cdMaintToOp }
      else s
  | .down =>
      if r.roll < 0.25 * hours_elapsed then
        if r.branch < 0.8 then
          { s with equipment_status := .operational,
                   equipment_change_cooldown := r.cdDownToOp }
        else
          { s with equipment_status := .maintenance,
                   equipment_change_cooldown := r.cdDownToMaint }
      else s
  | .reducedCapacity => s

/-- `_update_staffing_level(state, facility_type, hours_elapsed)`.
`current_staffing` and `trend` are read before the possible trend
re-randomization, exactly as in the source. -/
def update_staffing_level (ftype : FacilityType) (r : StaffRand)
    (hours_elapsed : ℚ) (s : FacilityState) : FacilityState :=
  let current_staffing : ℚ := (s.staffing_level : ℚ)
  let trend := s.staffing_trend
  let s1 :=
    if 8 ≤ hours_elapsed ∧ r.roll < 0.05 then
      if ftype = .hub then
        { s with staffing_trend := max (-5) (min 5 (trend + r.trendDelta)) }
      else
        { s with staffing_trend := max (-2) (min 2 (trend + r.trendDelta)) }
    else s
  if trend ≠ 0 then
    let staffing_change := trend * hours_elapsed
    let new_staffing := current_staffing + staffing_change
    let bounded :=
      if ftype = .hub then max 80 (min 350 new_staffing)
      else max 8 (min 35 new_staffing)
    { s1 with staffing_level := pytrunc bounded,
              staffing_trend := s1.staffing_trend * 0.95 }
  else s1

/-- Equipment multiplier dict of `_update_productivity`. -/
def equipment_multiplier : EquipmentStatus → ℚ
  | .operational => 1.0
  | .maintenance => 0.7
  | .down => 0.1
  | .reducedCapacity => 0.6

/-- `_update_productivity(state, facility_type, hours_elapsed)`. -/
def update_productivity (ftype : FacilityType) (hours_elapsed : ℚ)
    (s : FacilityState) : FacilityState :=
  let current_productivity := s.productivity_rate
  let em := equipment_multiplier s.equipment_status
  let optimal_staffing : ℚ := if ftype = .hub then 200 else 20
  let staffing_ratio := (s.staffing_level : ℚ) / optimal_staffing
  let staffing_multiplier :=
    if staffing_ratio < 0.7 then 0.6 + staffing_ratio * 0.4
    else if 1.3 < staffing_ratio then 1.0 - (staffing_ratio - 1.3) * 0.3
    else 0.9 + staffing_ratio * 0.1
  let base_productivity : ℚ := if ftype = .hub then 0.95 else 0.92
  let target_productivity := base_productivity * em * staffing_multiplier
  let change_rate := 0.1 * hours_elapsed
  let productivity_gap := target_productivity - current_productivity
  let new_productivity := current_productivity + productivity_gap * change_rate
  { s with productivity_rate := max 0.1 (min 1.3 new_productivity) }

/-- Equipment factor dict of `_update_timeliness`. -/
def timeliness_equipment_factor : EquipmentStatus → ℚ
  | .operational => 1.0
  | .maintenance => 0.85
  | .down => 0.3
  | .reducedCapacity => 0.75

/-- `_update_timeliness(state, facility_type, hours_elapsed)`. -/
def update_timeliness (ftype : FacilityType) (hours_elapsed : ℚ)
    (s : FacilityState) : FacilityState :=
  let current_timeliness := s.delivery_timeliness
  let productivity_factor := min 1.0 s.productivity_rate
  let ef := timeliness_equipment_factor s.equipment_status
  let base_timeliness : ℚ := if ftype = .hub then 96.0 else 94.0
  let target_timeliness := base_timeliness * productivity_factor * ef
  let change_rate := 0.2 * hours_elapsed
  let timeliness_gap := target_timeliness - current_timeliness
  let new_timeliness := current_timeliness + timeliness_gap * change_rate
  { s with delivery_timeliness := max 60.0 (min 99.9 new_timeliness) }

/-- `_update_downtime(state, hours_elapsed)`. -/
def update_downtime (hours_elapsed : ℚ) (s : FacilityState) : FacilityState :=
  if s.equipment_status = .down then
    { s with
        downtime_minutes := min 480 (s.downtime_minutes + pytrunc (hours_elapsed * 60)) }
  else if s.equipment_status = .operational then
    { s with
        downtime_minutes := max 0 (s.downtime_minutes - pytrunc (hours_elapsed * 30)) }
  else s

/-- The first two statements of `_update_facility_state`: reduce the cooldown
by `hours_elapsed` (floored at 0), then attempt an equipment transition if the
reduced cooldown is ≤ 0. -/
def cooldown_equipment_stage (r : UpdateRand) (hours_elapsed : ℚ)
    (s : FacilityState) : FacilityState :=
  let s1 := { s with
                equipment_change_cooldown := max 0 (s.equipment_change_cooldown - hours_elapsed) }
  if s1.equipment_change_cooldown ≤ 0 then
    update_equipment_status r.equip hours_elapsed s1
  else s1

/-- `_update_facility_state(facility_id, facility_type, hours_elapsed)`:
cooldown decrement and equipment transition, then the sub-updates in source
order. -/
def update_facility_state (ftype : FacilityType) (r : UpdateRand)
    (hours_elapsed : ℚ) (s : FacilityState) : FacilityState :=
  update_downtime hours_elapsed
    (update_timeliness ftype hours_elapsed
      (update_productivity ftype hours_elapsed
        (update_staffing_level ftype r.staff hours_elapsed
          (cooldown_equipment_stage r hours_elapsed s))))

/-- Oracle for the draws of `_initialize_facility_state`. -/
structure InitRand where
  staffing : ℤ
  productivity : ℚ
  timeliness : ℚ
  equip : EquipmentStatus
deriving DecidableEq, Repr

/-- Ranges of the initialization draws: `random.randint` / `random.uniform`
per facility class, and `random.choice` over
`["Operational", "Operational", "Operational", "Maintenance"]`. -/
def InitRand.WF (ftype : FacilityType) (r : InitRand) : Prop :=
  (match ftype with
   | .hub => 150 ≤ r.staffing ∧ r.staffing ≤ 250 ∧
             0.85 ≤ r.productivity ∧ r.productivity ≤ 1.05 ∧
             90.0 ≤ r.timeliness ∧ r.timeliness ≤ 96.0
   | .station => 15 ≤ r.staffing ∧ r.staffing ≤ 25 ∧
                 0.88 ≤ r.productivity ∧ r.productivity ≤ 1.02 ∧
                 92.0 ≤ r.timeliness ∧ r.timeliness ≤ 98.0) ∧
  (r.equip = .operational ∨ r.equip = .maintenance)

/-- `_initialize_facility_state(facility_id, facility_type)`. -/
def initialize_facility_state (r : InitRand) : FacilityState :=
  { staffing_level := r.staffing
    productivity_rate := r.productivity
    equipment_status := r.equip
    delivery_timeliness := r.timeliness
    downtime_minutes := 0
    equipment_change_cooldown := 0
    staffing_trend := 0
    productivity_trend := 0 }

/-- A sample facility state used to exercise the embedding on concrete data. -/
def demoState : FacilityState :=
  { staffing_level := 20
    productivity_rate := 0.9
    equipment_status := .down
    delivery_timeliness := 90
    downtime_minutes := 450
    equipment_change_cooldown := 5
    staffing_trend := 0
    productivity_trend := 0 }

example : pytrunc (29/10) = 2 := by decide
example : pytrunc (3/5) = 0 := by decide
example : (update_downtime 1 demoState).downtime_minutes = 480 := by decide

/-! ## Alert ledger and the DataAggregator alert passes -/

/-- The four `alert_type` strings used by `DataAggregator`. -/
inductive AlertType where
  | low_productivity
  | equipment_down
  | equipment_maintenance
  | high_capacity
deriving DecidableEq, Repr

/-- Alert `severity` strings. -/
inductive Severity where
  | info
  | warning
  | critical
deriving DecidableEq, Repr

/-- A row of the `alerts` table; `created_at` is embedded as the row's age in
hours relative to the current clock (`age_hours`), so the SQL condition
`created_at > datetime('now', '-H hour')` becomes `age_hours < H`. -/
structure AlertRecord where
  facility_id : ℕ
  alert_type : AlertType
  severity : Severity
  resolved : Bool
  age_hours : ℚ
deriving DecidableEq, Repr

/-- `AlertsDB.check_existing_alert(facility_id, alert_type, hours=1)` running
`CHECK_EXISTING_ALERT`: an unresolved alert of this type for this facility
created within the last `hours` hours exists. -/
def check_existing_alert (ledger : List AlertRecord) (facility_id : ℕ)
    (alert_type : AlertType) (hours : ℚ := 1) : Bool :=
  ledger.any fun a =>
    a.facility_id == facility_id && a.alert_type == alert_type &&
      !a.resolved && decide (a.age_hours < hours)

/-- `AlertsDB.insert_alert` running `INSERT_ALERT`: appends a fresh unresolved
row with `created_at = now`, i.e. age 0. -/
def insert_alert (ledger : List AlertRecord) (facility_id : ℕ)
    (alert_type : AlertType) (severity : Severity) : List AlertRecord :=
  ledger ++ [{ facility_id := facility_id, alert_type := alert_type,
               severity := severity, resolved := false, age_hours := 0 }]

/-- `DataAggregator._resolve_equipment_alerts_for_facility(facility_id)`:
`UPDATE alerts SET resolved = TRUE WHERE facility_id = ? AND alert_type IN
('equipment_down', 'equipment_maintenance') AND resolved = FALSE`. -/
def resolve_equipment_alerts_for_facility (ledger : List AlertRecord)
    (facility_id : ℕ) : List AlertRecord :=
  ledger.map fun a =>
    if a.facility_id = facility_id ∧
        (a.alert_type = .equipment_down ∨ a.alert_type = .equipment_maintenance) ∧
        a.resolved = false then
      { a with resolved := true }
    else a

/-- One row of `FacilityDB.get_all_active_facilities()` as consumed by the
alert passes: id plus the latest-metrics columns and capacity columns.
`equipment_status`/`productivity_rate` are `NULL` (`none`) when the facility
has no metrics row yet. -/
structure FacilityRow where
  id : ℕ
  equipment_status : Option EquipmentStatus
  productivity_rate : Option ℚ
  max_capacity : ℤ
  current_load : ℤ
deriving DecidableEq, Repr

/-- Body of the `_check_productivity_alerts` loop for one facility. -/
def check_productivity_step (ledger : List AlertRecord) (f : FacilityRow) :
    List AlertRecord :=
  match f.productivity_rate with
  | some p =>
      if p < 0.7 then
        if check_existing_alert ledger f.id .low_productivity then ledger
        else insert_alert ledger f.id .low_productivity .warning
      else ledger
  | none => ledger

/-- `DataAggregator._check_productivity_alerts()`. -/
def check_productivity_alerts (facilities : List FacilityRow)
    (ledger : List AlertRecord) : List AlertRecord :=
  facilities.foldl check_productivity_step ledger

/-- Body of the `_check_equipment_alerts` loop for one facility. -/
def check_equipment_step (ledger : List AlertRecord) (f : FacilityRow) :
    List AlertRecord :=
  match f.equipment_status with
  | some .down =>
      if check_existing_alert ledger f.id .equipment_down then ledger
      else insert_alert ledger f.id .equipment_down .critical
  | some .maintenance =>
      if check_existing_alert ledger f.id .equipment_maintenance then ledger
      else insert_alert ledger f.id .equipment_maintenance .warning
  | some .operational => resolve_equipment_alerts_for_facility ledger f.id
  | _ => ledger

/-- `DataAggregator._check_equipment_alerts()`. -/
def check_equipment_alerts (facilities : List FacilityRow)
    (ledger : List AlertRecord) : List AlertRecord :=
  facilities.foldl check_equipment_step ledger

/-- Body of the `_check_capacity_alerts` loop for one facility. Besides the
ledger it threads the list of facility ids for which the division
`current_load / max_capacity` was actually evaluated. -/
def check_capacity_step (acc : List AlertRecord × List ℕ) (f : FacilityRow) :
    List AlertRecord × List ℕ :=
  if 0 < f.max_capacity then
    let utilization : ℚ := (f.current_load : ℚ) / (f.max_capacity : ℚ)
    let divs := acc.2 ++ [f.id]
    if 0.9 < utilization then
      if check_existing_alert acc.1 f.id .high_capacity then (acc.1, divs)
      else (insert_alert acc.1 f.id .high_capacity .warning, divs)
    else (acc.1, divs)
  else acc

/-- `DataAggregator._check_capacity_alerts()`, also returning the division
log threaded by `check_capacity_step`. -/
def check_capacity_alerts (facilities : List FacilityRow)
    (ledger : List AlertRecord) : List AlertRecord × List ℕ :=
  facilities.foldl check_capacity_step (ledger, [])

/-- `DataAggregator._check_for_alerts()`: productivity, then equipment, then
capacity checks over the same facility list. -/
def check_for_alerts (facilities : List FacilityRow)
    (ledger : List AlertRecord) : List AlertRecord :=
  (check_capacity_alerts facilities
    (check_equipment_alerts facilities
      (check_productivity_alerts facilities ledger))).1

/-- Body of the `sync_alerts_with_current_data` loop for one facility: the
equipment branch (textually identical to the `_check_equipment_alerts` body)
followed by the productivity branch (textually identical to the
`_check_productivity_alerts` body). -/
def sync_alerts_step (ledger : List AlertRecord) (f : FacilityRow) :
    List AlertRecord :=
  check_productivity_step (check_equipment_step ledger f) f

/-- `DataAggregator.sync_alerts_with_current_data()` (startup sync pass). -/
def sync_alerts_with_current_data (facilities : List FacilityRow)
    (ledger : List AlertRecord) : List AlertRecord :=
  facilities.foldl sync_alerts_step ledger

/-- Number of unresolved alerts of one type for one facility in the ledger. -/
def countUnresolved (ledger : List AlertRecord) (facility_id : ℕ)
    (alert_type : AlertType) : ℕ :=
  (ledger.filter fun a =>
    a.facility_id == facility_id && a.alert_type == alert_type && !a.resolved).length

/-! ## retry_db_operation and the metrics batch-insert fallback -/

/-- Error classes a database operation can raise, as distinguished by the
`except` clauses of `retry_db_operation`: an `sqlite3.OperationalError` whose
text contains "database is locked", an `sqlite3.OperationalError` without that
text, and any other exception. -/
inductive DbError where
  | busyLocked
  | operationalOther
  | otherExc
deriving DecidableEq, Repr

/-- Outcome of invoking the wrapped operation once. -/
inductive DbOutcome (α : Type) where
  | ok (a : α)
  | err (e : DbError)
deriving DecidableEq, Repr

/-- Result of `retry_db_operation`: the operation's return value, a propagated
exception, or Python's implicit `None` when `range(max_retries)` is empty. -/
inductive RetryResult (α : Type) where
  | success (a : α)
  | failure (e : DbError)
  | fellThrough
deriving DecidableEq, Repr

/-- Trace of one `retry_db_operation` call: final result, number of times the
operation was invoked, and the `time.sleep` delays taken between attempts. -/
structure RetryTrace (α : Type) where
  result : RetryResult α
  calls : ℕ
  sleeps : List ℚ
deriving DecidableEq, Repr

/-- The `for attempt in range(max_retries)` loop of `retry_db_operation`.
`op` gives the outcome of the attempt with the given index and `jitter` the
`random.uniform(0, 0.1)` draw of that attempt; `fuel` is the number of loop
iterations remaining. -/
def retry_loop {α : Type} (op : ℕ → DbOutcome α) (jitter : ℕ → ℚ)
    (max_retries : ℕ) (base_delay : ℚ) : ℕ → ℕ → RetryTrace α
  | _, 0 => { result := .fellThrough, calls := 0, sleeps := [] }
  | attempt, fuel + 1 =>
      match op attempt with
      | .ok a => { result := .success a, calls := 1, sleeps := [] }
      | .err .busyLocked =>
          if attempt < max_retries - 1 then
            let delay := base_delay * 2 ^ attempt + jitter attempt
            let t := retry_loop op jitter max_retries base_delay (attempt + 1) fuel
            { result := t.result, calls := t.calls + 1, sleeps := delay :: t.sleeps }
          else { result := .failure .busyLocked, calls := 1, sleeps := [] }
      | .err e => { result := .failure e, calls := 1, sleeps := [] }

/-- `retry_db_operation(operation_func, max_retries=3, base_delay=0.1)`. -/
def retry_db_operation {α : Type} (op : ℕ → DbOutcome α) (jitter : ℕ → ℚ)
    (max_retries : ℕ := 3) (base_delay : ℚ := 0.1) : RetryTrace α :=
  retry_loop op jitter max_retries base_delay 0 max_retries

/-- A `facility_metrics` row (`core.models.FacilityMetrics`); the timestamp is
hours on the same clock as elsewhere. -/
structure MetricsSample where
  facility_id : ℕ
  staffing_level : ℤ
  productivity_rate : ℚ
  equipment_status : EquipmentStatus
  downtime_minutes : ℤ
  delivery_timeliness : ℚ
  timestamp : ℚ
deriving DecidableEq, Repr

/-- The per-item fallback loop of `_collect_facility_metrics`: each sample's
individual `MetricsDB.insert_metrics` call is attempted inside its own
`try/except`, so an item failure is logged and the loop continues. Returns the
samples attempted (in order) and the errors caught. -/
def individual_insert_loop (batch : List MetricsSample)
    (item_outcome : MetricsSample → DbOutcome Unit) :
    List MetricsSample × List DbError :=
  match batch with
  | [] => ([], [])
  | m :: rest =>
      let caught :=
        match item_outcome m with
        | .ok _ => ([] : List DbError)
        | .err e => [e]
      let t := individual_insert_loop rest item_outcome
      (m :: t.1, caught ++ t.2)

/-- The persistence part of `_collect_facility_metrics`: collect each
facility's metrics (skipping unavailable ones), then batch-insert; if the
batch insert raises, fall back to per-item inserts. Returns the collected
batch and the list of individual insert attempts made. -/
def collect_facility_metrics (facilities : List FacilityRow)
    (provider : FacilityRow → Option MetricsSample)
    (batch_outcome : List MetricsSample → DbOutcome Unit)
    (item_outcome : MetricsSample → DbOutcome Unit) :
    List MetricsSample × List MetricsSample :=
  let metrics_batch := facilities.filterMap provider
  if metrics_batch.isEmpty then (metrics_batch, [])
  else
    match batch_outcome metrics_batch with
    | .ok _ => (metrics_batch, [])
    | .err _ => (metrics_batch, (individual_insert_loop metrics_batch item_outcome).1)

/-! ## MockInternalDataProvider.get_facility_metrics -/

/-- The mutable state of `MockInternalDataProvider`: the `facility_states`
and `last_update_time` dicts. Times are hours on a global clock. -/
structure ProviderState where
  facility_states : ℕ → Option FacilityState
  last_update_time : ℕ → Option ℚ

/-- `MockInternalDataProvider.failure_rate`. -/
def provider_failure_rate : ℚ := 0.05

/-- `get_facility_metrics(facility_id, facility_type)`. `fail_roll` is the
`random.random()` draw checked against `failure_rate` before anything else;
`now` is `datetime.now()` in hours; `init_rand`/`upd_rand` feed the
initialization and update draws. Returns the optional metrics and the
provider state after the call. -/
def get_facility_metrics (ps : ProviderState) (facility_id : ℕ)
    (ftype : FacilityType) (fail_roll : ℚ) (now : ℚ) (init_rand : InitRand)
    (upd_rand : UpdateRand) : Option MetricsSample × ProviderState :=
  if fail_roll < provider_failure_rate then (none, ps)
  else
    let st0 :=
      match ps.facility_states facility_id with
      | none => initialize_facility_state init_rand
      | some s => s
    let last_update :=
      match ps.last_update_time facility_id with
      | none => now - 1
      | some t => t
    let hours_since_update := now - last_update
    let st1 := update_facility_state ftype upd_rand hours_since_update st0
    let ps' : ProviderState :=
      { facility_states := fun j => if j = facility_id then some st1 else ps.facility_states j
        last_update_time := fun j => if j = facility_id then some now else ps.last_update_time j }
    let minutes_offset : ℕ := facility_id * 17 % 60
    let sample : MetricsSample :=
      { facility_id := facility_id
        staffing_level := st1.staffing_level
        productivity_rate := st1.productivity_rate
        equipment_status := st1.equipment_status
        downtime_minutes := st1.downtime_minutes
        delivery_timeliness := st1.delivery_timeliness
        timestamp := now - (minutes_offset : ℚ) / 60 }
    (some sample, ps')

/-! ## Theorems -/

theorem individual_insert_loop_fst (batch : List MetricsSample)
    (item_outcome : MetricsSample → DbOutcome Unit) :
    (individual_insert_loop batch item_outcome).1 = batch := by
  induction batch with
  | nil => rfl
  | cons m rest ih => simp [individual_insert_loop, ih]

/-- C6: with max_retries = 3, an operation that raises the transient
storage-busy error on every attempt is invoked exactly 3 times and the error
propagates; one that raises it once and then succeeds returns that success
after exactly one backoff delay; any non-transient error propagates after a
single attempt with no retry. -/
theorem retry_db_operation_spec {α : Type} :
    (∀ (op : ℕ → DbOutcome α) (jitter : ℕ → ℚ),
      (∀ i, op i = .err .busyLocked) →
      (retry_db_operation op jitter 3 0.1).result = .failure .busyLocked ∧
      (retry_db_operation op jitter 3 0.1).calls = 3) ∧
    (∀ (op : ℕ → DbOutcome α) (jitter : ℕ → ℚ) (v : α),
      op 0 = .err .busyLocked → op 1 = .ok v →
      (retry_db_operation op jitter 3 0.1).result = .success v ∧
      (retry_db_operation op jitter 3 0.1).calls = 2 ∧
      (retry_db_operation op jitter 3 0.1).sleeps.length = 1) ∧
    (∀ (op : ℕ → DbOutcome α) (jitter : ℕ → ℚ) (e : DbError),
      e ≠ .busyLocked → op 0 = .err e →
      (retry_db_operation op jitter 3 0.1).result = .failure e ∧
      (retry_db_operation op jitter 3 0.1).calls = 1 ∧
      (retry_db_operation op jitter 3 0.1).sleeps = []) := by
  refine ⟨?_, ?_, ?_⟩
  · intro op jitter h
    simp [retry_db_operation, retry_loop, h 0, h 1, h 2]
  · intro op jitter v h0 h1
    simp [retry_db_operation, retry_loop, h0, h1]
  · intro op jitter e he h0
    cases e with
    | busyLocked => exact absurd rfl he
    | operationalOther => simp [retry_db_operation, retry_loop, h0]
    | otherExc => simp [retry_db_operation, retry_loop, h0]

/-- Concrete instantiation of `retry_db_operation_spec`: an always-busy
operation, one that succeeds on the second attempt, and one that raises a
non-transient error. -/
theorem retry_db_operation_spec_witness :
    ((retry_db_operation (fun _ => (.err .busyLocked : DbOutcome Unit)) (fun _ => 0) 3 0.1).result
        = .failure .busyLocked ∧
      (retry_db_operation (fun _ => (.err .busyLocked : DbOutcome Unit)) (fun _ => 0) 3 0.1).calls = 3) ∧
    ((retry_db_operation (fun i => if i = 0 then (.err .busyLocked : DbOutcome Unit) else .ok ()) (fun _ => 0) 3 0.1).result
        = .success () ∧
      (retry_db_operation (fun i => if i = 0 then (.err .busyLocked : DbOutcome Unit) else .ok ()) (fun _ => 0) 3 0.1).calls = 2 ∧
      (retry_db_operation (fun i => if i = 0 then (.err .busyLocked : DbOutcome Unit) else .ok ()) (fun _ => 0) 3 0.1).sleeps.length = 1) ∧
    ((retry_db_operation (fun _ => (.err .otherExc : DbOutcome Unit)) (fun _ => 0) 3 0.1).result
        = .failure .otherExc ∧
      (retry_db_operation (fun _ => (.err .otherExc : DbOutcome Unit)) (fun _ => 0) 3 0.1).calls = 1 ∧
      (retry_db_operation (fun _ => (.err .otherExc : DbOutcome Unit)) (fun _ => 0) 3 0.1).sleeps = []) := by
  refine ⟨?_, ?_, ?_⟩
  · exact retry_db_operation_spec.1 (fun _ => .err .busyLocked) (fun _ => 0) (fun _ => rfl)
  · exact retry_db_operation_spec.2.1 _ (fun _ => 0) () rfl rfl
  · exact retry_db_operation_spec.2.2 (fun _ => .err .otherExc) (fun _ => 0) .otherExc
      (by decide) rfl

/-- C7: whenever the single-transaction batch insert of the collected metrics
fails, exactly one individual insert attempt is made per collected sample, in
batch order, whatever the outcomes of the individual inserts are. -/
theorem batch_insert_fallback (facilities : List FacilityRow)
    (provider : FacilityRow → Option MetricsSample)
    (batch_outcome : List MetricsSample → DbOutcome Unit)
    (item_outcome : MetricsSample → DbOutcome Unit) (e : DbError)
    (hfail : batch_outcome (facilities.filterMap provider) = .err e) :
    (collect_facility_metrics facilities provider batch_outcome item_outcome).2
      = facilities.filterMap provider := by
  unfold collect_facility_metrics
  by_cases hemp : (facilities.filterMap provider).isEmpty
  · simp [hemp, List.isEmpty_iff.mp hemp]
  · simp [hemp, hfail, individual_insert_loop_fst]

/-- A sample metrics row for a given facility id, used in concrete
instantiations. -/
def demoSample (facility_id : ℕ) : MetricsSample :=
  { facility_id := facility_id
    staffing_level := 20
    productivity_rate := 0.9
    equipment_status := .operational
    downtime_minutes := 0
    delivery_timeliness := 95
    timestamp := 0 }

/-- A sample facility row with the given id, capacity and load, used in
concrete instantiations. -/
def demoRow (id : ℕ) (max_capacity current_load : ℤ) : FacilityRow :=
  { id := id
    equipment_status := none
    productivity_rate := none
    max_capacity := max_capacity
    current_load := current_load }

/-- Concrete instantiation of `batch_insert_fallback`: two facilities with
available metrics, a failing batch insert, and an item insert that fails on
the first sample; both samples are still attempted, in order. -/
theorem batch_insert_fallback_witness :
    (collect_facility_metrics [demoRow 1 100 0, demoRow 2 100 0]
        (fun f => some (demoSample f.id))
        (fun _ => .err .otherExc)
        (fun m => if m.facility_id = 1 then .err .otherExc else .ok ())).2
      = [demoSample 1, demoSample 2] := by
  exact batch_insert_fallback _ _ _ _ .otherExc rfl

/-- C10: when the provider's availability roll fails (`random.random() <
failure_rate`), `get_facility_metrics` returns `None` before performing any
mutation: the stored facility states and last-update times are exactly the
ones from before the call. -/
theorem get_facility_metrics_unavailable (ps : ProviderState) (facility_id : ℕ)
    (ftype : FacilityType) (fail_roll : ℚ) (now : ℚ) (init_rand : InitRand)
    (upd_rand : UpdateRand) (h : fail_roll < provider_failure_rate) :
    get_facility_metrics ps facility_id ftype fail_roll now init_rand upd_rand
      = (none, ps) := by
  simp [get_facility_metrics, h]

/-- Concrete instantiation of `get_facility_metrics_unavailable` on an empty
provider state. -/
theorem get_facility_metrics_unavailable_witness :
    get_facility_metrics ⟨fun _ => none, fun _ => none⟩ 1 .hub 0 100
        ⟨200, 0.9, 95, .operational⟩
        ⟨⟨0, 0, 4, 1, 24, 12, 2⟩, ⟨0, 0⟩⟩
      = (none, ⟨fun _ => none, fun _ => none⟩) :=
  get_facility_metrics_unavailable _ 1 .hub 0 100 _ _ (by norm_num [provider_failure_rate])

theorem check_capacity_step_cases (acc : List AlertRecord × List ℕ)
    (f : FacilityRow) :
    (f.max_capacity ≤ 0 ∧ check_capacity_step acc f = acc) ∨
    (0 < f.max_capacity ∧ (check_capacity_step acc f).2 = acc.2 ++ [f.id]) := by
  by_cases h : 0 < f.max_capacity
  · right
    refine ⟨h, ?_⟩
    simp only [check_capacity_step, if_pos h]
    split
    · split <;> rfl
    · rfl
  · left
    exact ⟨le_of_not_lt h, by simp [check_capacity_step, h]⟩

theorem check_capacity_divs_sound (facilities : List FacilityRow) :
    ∀ (acc : List AlertRecord × List ℕ) (fid : ℕ),
      fid ∈ (facilities.foldl check_capacity_step acc).2 →
      fid ∈ acc.2 ∨ ∃ f ∈ facilities, f.id = fid ∧ 0 < f.max_capacity := by
  induction facilities with
  | nil => intro acc fid h; exact Or.inl h
  | cons f rest ih =>
      intro acc fid h
      rw [List.foldl_cons] at h
      rcases ih (check_capacity_step acc f) fid h with hmem | ⟨g, hg, rfl, hcap⟩
      · rcases check_capacity_step_cases acc f with ⟨_, heq⟩ | ⟨hcap, heq⟩
        · rw [heq] at hmem
          exact Or.inl hmem
        · rw [heq] at hmem
          rcases List.mem_append.mp hmem with h1 | h1
          · exact Or.inl h1
          · exact Or.inr ⟨f, List.mem_cons_self f rest, (List.mem_singleton.mp h1).symm, hcap⟩
      · exact Or.inr ⟨g, List.mem_cons_of_mem f hg, rfl, hcap⟩

/-- C9: in `_check_capacity_alerts`, the division `current_load/max_capacity`
is evaluated only for facilities with `max_capacity > 0`; a facility with
`max_capacity ≤ 0` is skipped without error and the remaining facilities are
processed exactly as if it were absent. -/
theorem check_capacity_guard (facilities : List FacilityRow)
    (ledger : List AlertRecord) :
    (∀ fid ∈ (check_capacity_alerts facilities ledger).2,
       ∃ f ∈ facilities, f.id = fid ∧ 0 < f.max_capacity) ∧
    (∀ (pre post : List FacilityRow) (bad : FacilityRow),
       facilities = pre ++ bad :: post → bad.max_capacity ≤ 0 →
       check_capacity_alerts facilities ledger
         = check_capacity_alerts (pre ++ post) ledger) := by
  constructor
  · intro fid hmem
    rcases check_capacity_divs_sound facilities (ledger, []) fid hmem with h | h
    · simp at h
    · exact h
  · intro pre post bad hsplit hbad
    subst hsplit
    unfold check_capacity_alerts
    rw [List.foldl_append, List.foldl_cons, List.foldl_append]
    rcases check_capacity_step_cases (pre.foldl check_capacity_step (ledger, [])) bad with
      ⟨_, heq⟩ | ⟨hcap, _⟩
    · rw [heq]
    · exact absurd hcap (not_lt.mpr hbad)

/-- Concrete instantiation of `check_capacity_guard`: a facility at 100%
utilization has its division logged and capacity guarded, and a facility with
`max_capacity = 0` is skipped without affecting the pass. -/
theorem check_capacity_guard_witness :
    (∃ f ∈ [demoRow 1 10 10], f.id = 1 ∧ 0 < f.max_capacity) ∧
    check_capacity_alerts [demoRow 2 0 5] [] = check_capacity_alerts [] [] := by
  constructor
  · exact (check_capacity_guard [demoRow 1 10 10] []).1 1 (by decide)
  · exact (check_capacity_guard [demoRow 2 0 5] []).2 [] [] (demoRow 2 0 5) rfl (by decide)

/-! ### Field-preservation lemmas for the state-evolution sub-updates -/

@[simp] theorem update_equipment_status_staffing (r : EquipRand) (h : ℚ)
    (s : FacilityState) :
    (update_equipment_status r h s).staffing_level = s.staffing_level := by
  unfold update_equipment_status
  rcases s.equipment_status <;> dsimp only <;> split_ifs <;> rfl

@[simp] theorem update_equipment_status_productivity (r : EquipRand) (h : ℚ)
    (s : FacilityState) :
    (update_equipment_status r h s).productivity_rate = s.productivity_rate := by
  unfold update_equipment_status
  rcases s.equipment_status <;> dsimp only <;> split_ifs <;> rfl

@[simp] theorem update_equipment_status_timeliness (r : EquipRand) (h : ℚ)
    (s : FacilityState) :
    (update_equipment_status r h s).delivery_timeliness = s.delivery_timeliness := by
  unfold update_equipment_status
  rcases s.equipment_status <;> dsimp only <;> split_ifs <;> rfl

@[simp] theorem update_equipment_status_downtime (r : EquipRand) (h : ℚ)
    (s : FacilityState) :
    (update_equipment_status r h s).downtime_minutes = s.downtime_minutes := by
  unfold update_equipment_status
  rcases s.equipment_status <;> dsimp only <;> split_ifs <;> rfl

@[simp] theorem update_equipment_status_trend (r : EquipRand) (h : ℚ)
    (s : FacilityState) :
    (update_equipment_status r h s).staffing_trend = s.staffing_trend := by
  unfold update_equipment_status
  rcases s.equipment_status <;> dsimp only <;> split_ifs <;> rfl

@[simp] theorem update_staffing_level_equipment (ftype : FacilityType)
    (r : StaffRand) (h : ℚ) (s : FacilityState) :
    (update_staffing_level ftype r h s).equipment_status = s.equipment_status := by
  unfold update_staffing_level
  dsimp only
  split_ifs <;> rfl

@[simp] theorem update_staffing_level_cooldown (ftype : FacilityType)
    (r : StaffRand) (h : ℚ) (s : FacilityState) :
    (update_staffing_level ftype r h s).equipment_change_cooldown
      = s.equipment_change_cooldown := by
  unfold update_staffing_level
  dsimp only
  split_ifs <;> rfl

@[simp] theorem update_staffing_level_productivity (ftype : FacilityType)
    (r : StaffRand) (h : ℚ) (s : FacilityState) :
    (update_staffing_level ftype r h s).productivity_rate = s.productivity_rate := by
  unfold update_staffing_level
  dsimp only
  split_ifs <;> rfl

@[simp] theorem update_staffing_level_timeliness (ftype : FacilityType)
    (r : StaffRand) (h : ℚ) (s : FacilityState) :
    (update_staffing_level ftype r h s).delivery_timeliness = s.delivery_timeliness := by
  unfold update_staffing_level
  dsimp only
  split_ifs <;> rfl

@[simp] theorem update_staffing_level_downtime (ftype : FacilityType)
    (r : StaffRand) (h : ℚ) (s : FacilityState) :
    (update_staffing_level ftype r h s).downtime_minutes = s.downtime_minutes := by
  unfold update_staffing_level
  dsimp only
  split_ifs <;> rfl

@[simp] theorem update_productivity_equipment (ftype : FacilityType) (h : ℚ)
    (s : FacilityState) :
    (update_productivity ftype h s).equipment_status = s.equipment_status := rfl

@[simp] theorem update_productivity_cooldown (ftype : FacilityType) (h : ℚ)
    (s : FacilityState) :
    (update_productivity ftype h s).equipment_change_cooldown
      = s.equipment_change_cooldown := rfl

@[simp] theorem update_productivity_staffing (ftype : FacilityType) (h : ℚ)
    (s : FacilityState) :
    (update_productivity ftype h s).staffing_level = s.staffing_level := rfl

@[simp] theorem update_productivity_timeliness (ftype : FacilityType) (h : ℚ)
    (s : FacilityState) :
    (update_productivity ftype h s).delivery_timeliness = s.delivery_timeliness := rfl

@[simp] theorem update_productivity_downtime (ftype : FacilityType) (h : ℚ)
    (s : FacilityState) :
    (update_productivity ftype h s).downtime_minutes = s.downtime_minutes := rfl

@[simp] theorem update_timeliness_equipment (ftype : FacilityType) (h : ℚ)
    (s : FacilityState) :
    (update_timeliness ftype h s).equipment_status = s.equipment_status := rfl

@[simp] theorem update_timeliness_cooldown (ftype : FacilityType) (h : ℚ)
    (s : FacilityState) :
    (update_timeliness ftype h s).equipment_change_cooldown
      = s.equipment_change_cooldown := rfl

@[simp] theorem update_timeliness_staffing (ftype : FacilityType) (h : ℚ)
    (s : FacilityState) :
    (update_timeliness ftype h s).staffing_level = s.staffing_level := rfl

@[simp] theorem update_timeliness_productivity (ftype : FacilityType) (h : ℚ)
    (s : FacilityState) :
    (update_timeliness ftype h s).productivity_rate = s.productivity_rate := rfl

@[simp] theorem update_timeliness_downtime (ftype : FacilityType) (h : ℚ)
    (s : FacilityState) :
    (update_timeliness ftype h s).downtime_minutes = s.downtime_minutes := rfl

@[simp] theorem update_downtime_equipment (h : ℚ) (s : FacilityState) :
    (update_downtime h s).equipment_status = s.equipment_status := by
  unfold update_downtime
  split_ifs <;> rfl

@[simp] theorem update_downtime_cooldown (h : ℚ) (s : FacilityState) :
    (update_downtime h s).equipment_change_cooldown
      = s.equipment_change_cooldown := by
  unfold update_downtime
  split_ifs <;> rfl

@[simp] theorem update_downtime_staffing (h : ℚ) (s : FacilityState) :
    (update_downtime h s).staffing_level = s.staffing_level := by
  unfold update_downtime
  split_ifs <;> rfl

@[simp] theorem update_downtime_productivity (h : ℚ) (s : FacilityState) :
    (update_downtime h s).productivity_rate = s.productivity_rate := by
  unfold update_downtime
  split_ifs <;> rfl

@[simp] theorem update_downtime_timeliness (h : ℚ) (s : FacilityState) :
    (update_downtime h s).delivery_timeliness = s.delivery_timeliness := by
  unfold update_downtime
  split_ifs <;> rfl

@[simp] theorem cooldown_equipment_stage_staffing (r : UpdateRand) (h : ℚ)
    (s : FacilityState) :
    (cooldown_equipment_stage r h s).staffing_level = s.staffing_level := by
  unfold cooldown_equipment_stage
  dsimp only
  split_ifs <;> simp

@[simp] theorem cooldown_equipment_stage_trend (r : UpdateRand) (h : ℚ)
    (s : FacilityState) :
    (cooldown_equipment_stage r h s).staffing_trend = s.staffing_trend := by
  unfold cooldown_equipment_stage
  dsimp only
  split_ifs <;> simp

@[simp] theorem cooldown_equipment_stage_productivity (r : UpdateRand) (h : ℚ)
    (s : FacilityState) :
    (cooldown_equipment_stage r h s).productivity_rate = s.productivity_rate := by
  unfold cooldown_equipment_stage
  dsimp only
  split_ifs <;> simp

@[simp] theorem cooldown_equipment_stage_timeliness (r : UpdateRand) (h : ℚ)
    (s : FacilityState) :
    (cooldown_equipment_stage r h s).delivery_timeliness = s.delivery_timeliness := by
  unfold cooldown_equipment_stage
  dsimp only
  split_ifs <;> simp

@[simp] theorem cooldown_equipment_stage_downtime (r : UpdateRand) (h : ℚ)
    (s : FacilityState) :
    (cooldown_equipment_stage r h s).downtime_minutes = s.downtime_minutes := by
  unfold cooldown_equipment_stage
  dsimp only
  split_ifs <;> simp

theorem update_facility_state_equipment (ftype : FacilityType) (r : UpdateRand)
    (h : ℚ) (s : FacilityState) :
    (update_facility_state ftype r h s).equipment_status
      = (cooldown_equipment_stage r h s).equipment_status := by
  unfold update_facility_state
  simp

theorem update_facility_state_cooldown (ftype : FacilityType) (r : UpdateRand)
    (h : ℚ) (s : FacilityState) :
    (update_facility_state ftype r h s).equipment_change_cooldown
      = (cooldown_equipment_stage r h s).equipment_change_cooldown := by
  unfold update_facility_state
  simp

theorem equip_stage_cooldown (r : EquipRand) (h : ℚ) (s1 : FacilityState)
    (hwf : r.WF) (h1 : 0 ≤ s1.equipment_change_cooldown) :
    0 ≤ (update_equipment_status r h s1).equipment_change_cooldown ∧
    ((update_equipment_status r h s1).equipment_status = s1.equipment_status →
      (update_equipment_status r h s1).equipment_change_cooldown
        = s1.equipment_change_cooldown) := by
  obtain ⟨hr0, hr1, hb0, hb1, c1, c2, c3, c4, c5, c6, c7, c8, c9, c10⟩ := hwf
  rcases hst : s1.equipment_status <;>
    simp only [update_equipment_status, hst] <;>
    (try split_ifs) <;>
    simp_all <;>
    linarith

/-- C3 as stated is false: `_update_facility_state` decrements the cooldown by
`hours_elapsed` before checking the gate, so a transition can happen in a call
that starts with a strictly positive cooldown. Here the cooldown is 5 hours,
the call covers 10 hours, and the Down equipment transitions. -/
theorem cooldown_gate_counterexample :
    (update_facility_state .station ⟨⟨0, 0, 4, 1, 24, 12, 2⟩, ⟨1, 0⟩⟩ 10
        { staffing_level := 20, productivity_rate := 0.9,
          equipment_status := .down, delivery_timeliness := 90,
          downtime_minutes := 0, equipment_change_cooldown := 5,
          staffing_trend := 0, productivity_trend := 0 }).equipment_status
      ≠ EquipmentStatus.down ∧ (0 : ℚ) < 5 := by
  decide

/-- C3 (amended): after one `_update_facility_state` call with non-negative
elapsed hours and library-range random draws, the cooldown is never negative;
`equipment_status` changes only if the cooldown *after* the elapsed-hours
decrement is ≤ 0, i.e. only if the cooldown before the call was at most
`elapsed_hours` (not necessarily ≤ 0); and when no transition happens the new
cooldown is exactly `max 0 (old - elapsed_hours)`. -/
theorem cooldown_gate (ftype : FacilityType) (r : UpdateRand) (h : ℚ)
    (s : FacilityState) (hh : 0 ≤ h) (hwf : r.equip.WF) :
    0 ≤ (update_facility_state ftype r h s).equipment_change_cooldown ∧
    ((update_facility_state ftype r h s).equipment_status ≠ s.equipment_status →
      s.equipment_change_cooldown ≤ h) ∧
    ((update_facility_state ftype r h s).equipment_status = s.equipment_status →
      (update_facility_state ftype r h s).equipment_change_cooldown
        = max 0 (s.equipment_change_cooldown - h)) := by
  simp only [update_facility_state_equipment, update_facility_state_cooldown]
  unfold cooldown_equipment_stage
  dsimp only
  by_cases hc : max 0 (s.equipment_change_cooldown - h) ≤ 0
  · rw [if_pos hc]
    have hle : s.equipment_change_cooldown ≤ h := by
      have := (max_le_iff.mp hc).2
      linarith
    have hstage := equip_stage_cooldown r.equip h
      { s with equipment_change_cooldown := max 0 (s.equipment_change_cooldown - h) }
      hwf (le_max_left 0 _)
    exact ⟨hstage.1, fun _ => hle, fun hst => hstage.2 hst⟩
  · rw [if_neg hc]
    exact ⟨le_max_left 0 _, fun hne => absurd rfl hne, fun _ => rfl⟩

/-- Concrete instantiation of `cooldown_gate`: a Down facility with cooldown 5
observed after 2 elapsed hours keeps its status and its cooldown drops to 3. -/
theorem cooldown_gate_witness :
    (update_facility_state .station ⟨⟨0, 0, 4, 1, 24, 12, 2⟩, ⟨1, 0⟩⟩ 2
        { staffing_level := 20, productivity_rate := 0.9,
          equipment_status := .down, delivery_timeliness := 90,
          downtime_minutes := 0, equipment_change_cooldown := 5,
          staffing_trend := 0, productivity_trend := 0 }).equipment_change_cooldown
      = max 0 (5 - 2) := by
  exact (cooldown_gate .station ⟨⟨0, 0, 4, 1, 24, 12, 2⟩, ⟨1, 0⟩⟩ 2 _ (by norm_num)
    (by constructor <;> norm_num)).2.2 (by decide)

/-- The target productivity computed inside `_update_productivity`. -/
def productivity_target (ftype : FacilityType) (s : FacilityState) : ℚ :=
  let em := equipment_multiplier s.equipment_status
  let optimal_staffing : ℚ := if ftype = .hub then 200 else 20
  let staffing_ratio := (s.staffing_level : ℚ) / optimal_staffing
  let staffing_multiplier :=
    if staffing_ratio < 0.7 then 0.6 + staffing_ratio * 0.4
    else if 1.3 < staffing_ratio then 1.0 - (staffing_ratio - 1.3) * 0.3
    else 0.9 + staffing_ratio * 0.1
  let base_productivity : ℚ := if ftype = .hub then 0.95 else 0.92
  base_productivity * em * staffing_multiplier

/-- The target timeliness computed inside `_update_timeliness`. -/
def timeliness_target (ftype : FacilityType) (s : FacilityState) : ℚ :=
  (if ftype = .hub then (96.0 : ℚ) else 94.0) * min 1.0 s.productivity_rate *
    timeliness_equipment_factor s.equipment_status

theorem update_productivity_eq (ftype : FacilityType) (h : ℚ) (s : FacilityState) :
    (update_productivity ftype h s).productivity_rate
      = max 0.1 (min 1.3 (s.productivity_rate
          + (productivity_target ftype s - s.productivity_rate) * (0.1 * h))) := rfl

theorem update_timeliness_eq (ftype : FacilityType) (h : ℚ) (s : FacilityState) :
    (update_timeliness ftype h s).delivery_timeliness
      = max 60.0 (min 99.9 (s.delivery_timeliness
          + (timeliness_target ftype s - s.delivery_timeliness) * (0.2 * h))) := rfl

/-- The productivity relaxation step as the spec words it: the current value
moves toward the target by the fraction `min(1, 0.1×elapsed_hours)` of the
gap, then is clamped to [0.1, 1.3]. Used only to compare against
`update_productivity`. -/
def spec_productivity_step (ftype : FacilityType) (h : ℚ) (s : FacilityState) : ℚ :=
  max 0.1 (min 1.3 (s.productivity_rate
    + (productivity_target ftype s - s.productivity_rate) * min 1 (0.1 * h)))

/-- The timeliness relaxation step as the spec words it: fraction
`min(1, 0.2×elapsed_hours)` of the gap, clamped to [60, 99.9]. Used only to
compare against `update_timeliness`. -/
def spec_timeliness_step (ftype : FacilityType) (h : ℚ) (s : FacilityState) : ℚ :=
  max 60.0 (min 99.9 (s.delivery_timeliness
    + (timeliness_target ftype s - s.delivery_timeliness) * min 1 (0.2 * h)))

/-- A station state with optimal staffing, Operational equipment, productivity
0.9 and a long cooldown, used for the relaxation counterexamples. -/
def relaxState : FacilityState :=
  { staffing_level := 20
    productivity_rate := 0.9
    equipment_status := .operational
    delivery_timeliness := 90
    downtime_minutes := 0
    equipment_change_cooldown := 100
    staffing_trend := 0
    productivity_trend := 0 }

/-- C4 as stated is false: `_update_productivity` uses the uncapped fraction
`0.1×elapsed_hours` of the gap. At `elapsed_hours = 20` the target is 0.92 and
the current value 0.9, yet the code lands on 0.94 — not the spec's 0.92 — and
overshoots past the target. -/
theorem relaxation_fraction_counterexample :
    (update_productivity .station 20 relaxState).productivity_rate = 47/50 ∧
    spec_productivity_step .station 20 relaxState = 23/25 ∧
    productivity_target .station relaxState = 23/25 ∧
    ¬ ((47 : ℚ)/50 = 23/25) ∧ (23 : ℚ)/25 < 47/50 := by
  decide

theorem lag_no_overshoot (c t k : ℚ) (hk0 : 0 ≤ k) (hk1 : k ≤ 1) :
    min c t ≤ c + (t - c) * k ∧ c + (t - c) * k ≤ max c t := by
  rcases le_total c t with hct | htc
  · rw [min_eq_left hct, max_eq_right hct]
    constructor <;> nlinarith
  · rw [min_eq_right htc, max_eq_left htc]
    constructor <;> nlinarith

/-- C4 (amended): the relaxation moves by the *uncapped* fraction
`0.1×elapsed_hours` (productivity) resp. `0.2×elapsed_hours` (timeliness) of
the gap and then clamps. Therefore the update agrees with the spec's
`min(1, …)` formula exactly when that fraction is ≤ 1 — `elapsed_hours ≤ 10`
resp. `≤ 5` — and in that regime the moved value stays between the current
value and the target (no overshoot); for larger gaps the fraction exceeds 1
and overshoot is possible (see the counterexample). -/
theorem relaxation_step_exact (ftype : FacilityType) (h : ℚ) (s : FacilityState)
    (hh : 0 ≤ h) :
    (h ≤ 10 →
      (update_productivity ftype h s).productivity_rate
          = spec_productivity_step ftype h s ∧
      min s.productivity_rate (productivity_target ftype s)
          ≤ s.productivity_rate
            + (productivity_target ftype s - s.productivity_rate) * (0.1 * h) ∧
      s.productivity_rate
          + (productivity_target ftype s - s.productivity_rate) * (0.1 * h)
          ≤ max s.productivity_rate (productivity_target ftype s)) ∧
    (h ≤ 5 →
      (update_timeliness ftype h s).delivery_timeliness
          = spec_timeliness_step ftype h s ∧
      min s.delivery_timeliness (timeliness_target ftype s)
          ≤ s.delivery_timeliness
            + (timeliness_target ftype s - s.delivery_timeliness) * (0.2 * h) ∧
      s.delivery_timeliness
          + (timeliness_target ftype s - s.delivery_timeliness) * (0.2 * h)
          ≤ max s.delivery_timeliness (timeliness_target ftype s)) := by
  constructor
  · intro h10
    have hk1 : (0.1 : ℚ) * h ≤ 1 := by linarith
    have hk0 : (0 : ℚ) ≤ 0.1 * h := by linarith
    have hno := lag_no_overshoot s.productivity_rate (productivity_target ftype s)
      (0.1 * h) hk0 hk1
    refine ⟨?_, hno.1, hno.2⟩
    rw [update_productivity_eq, spec_productivity_step, min_eq_right hk1]
  · intro h5
    have hk1 : (0.2 : ℚ) * h ≤ 1 := by linarith
    have hk0 : (0 : ℚ) ≤ 0.2 * h := by linarith
    have hno := lag_no_overshoot s.delivery_timeliness (timeliness_target ftype s)
      (0.2 * h) hk0 hk1
    refine ⟨?_, hno.1, hno.2⟩
    rw [update_timeliness_eq, spec_timeliness_step, min_eq_right hk1]

/-- Concrete instantiation of `relaxation_step_exact` at 1 elapsed hour. -/
theorem relaxation_step_exact_witness :
    (update_productivity .station 1 relaxState).productivity_rate
        = spec_productivity_step .station 1 relaxState ∧
    (update_timeliness .station 1 relaxState).delivery_timeliness
        = spec_timeliness_step .station 1 relaxState :=
  ⟨((relaxation_step_exact .station 1 relaxState (by norm_num)).1 (by norm_num)).1,
   ((relaxation_step_exact .station 1 relaxState (by norm_num)).2 (by norm_num)).1⟩

theorem update_downtime_def (h : ℚ) (s : FacilityState) :
    (update_downtime h s).downtime_minutes =
      if s.equipment_status = .down then
        min 480 (s.downtime_minutes + pytrunc (h * 60))
      else if s.equipment_status = .operational then
        max 0 (s.downtime_minutes - pytrunc (h * 30))
      else s.downtime_minutes := by
  unfold update_downtime
  split_ifs <;> rfl

/-- The downtime update exactly as the spec words it, real-valued and with no
integer truncation: while Down add `60×elapsed_hours` minutes capped at 480,
while Operational subtract `30×elapsed_hours` floored at 0, otherwise leave
unchanged. Used only to compare against `update_downtime`. -/
def spec_downtime_step (h : ℚ) (s : FacilityState) : ℚ :=
  if s.equipment_status = .down then
    min 480 ((s.downtime_minutes : ℚ) + 60 * h)
  else if s.equipment_status = .operational then
    max 0 ((s.downtime_minutes : ℚ) - 30 * h)
  else (s.downtime_minutes : ℚ)

/-- A Down station state with zero accumulated downtime and a cooldown long
enough that no transition can fire, used for the downtime counterexample. -/
def downState : FacilityState :=
  { staffing_level := 20
    productivity_rate := 0.9
    equipment_status := .down
    delivery_timeliness := 90
    downtime_minutes := 0
    equipment_change_cooldown := 5
    staffing_trend := 0
    productivity_trend := 0 }

/-- C8 as stated is false: `_update_downtime` adds `int(hours_elapsed * 60)`,
truncating toward zero. At `elapsed_hours = 1/100` of an hour a Down facility
should gain 0.6 minutes per the claim, but the code adds `int(0.6) = 0`. -/
theorem downtime_truncation_counterexample :
    (update_facility_state .station ⟨⟨1, 0, 4, 1, 24, 12, 2⟩, ⟨1, 0⟩⟩ (1/100)
        downState).downtime_minutes = 0 ∧
    spec_downtime_step (1/100) downState = 3/5 ∧
    ¬ ((3 : ℚ)/5 = ((0 : ℤ) : ℚ)) := by
  refine ⟨by decide, by decide, by norm_num⟩

/-- C8 (amended): one `_update_facility_state` call changes
`downtime_minutes` according to the equipment status in force after this
call's (possible) equipment transition: while Down it increases by
`int(60×elapsed_hours)` minutes (truncated toward zero) capped at 480, while
Operational it decreases by `int(30×elapsed_hours)` minutes floored at 0, and
while Maintenance it is exactly unchanged. -/
theorem downtime_step (ftype : FacilityType) (r : UpdateRand) (h : ℚ)
    (s : FacilityState) :
    (((update_facility_state ftype r h s).equipment_status = .down →
      (update_facility_state ftype r h s).downtime_minutes
        = min 480 (s.downtime_minutes + pytrunc (h * 60))) ∧
    ((update_facility_state ftype r h s).equipment_status = .operational →
      (update_facility_state ftype r h s).downtime_minutes
        = max 0 (s.downtime_minutes - pytrunc (h * 30))) ∧
    ((update_facility_state ftype r h s).equipment_status = .maintenance →
      (update_facility_state ftype r h s).downtime_minutes
        = s.downtime_minutes)) := by
  unfold update_facility_state
  refine ⟨?_, ?_, ?_⟩ <;>
    intro hst <;>
    simp only [update_downtime_equipment] at hst <;>
    rw [update_downtime_def, hst] <;>
    simp

/-- Concrete instantiation of `downtime_step`: one hour Down adds 60 minutes. -/
theorem downtime_step_witness :
    (update_facility_state .station ⟨⟨1, 0, 4, 1, 24, 12, 2⟩, ⟨1, 0⟩⟩ 1
        downState).downtime_minutes
      = min 480 (downState.downtime_minutes + pytrunc (1 * 60)) :=
  (downtime_step .station ⟨⟨1, 0, 4, 1, 24, 12, 2⟩, ⟨1, 0⟩⟩ 1 downState).1 (by decide)

/-! ### C2: the bounds invariant -/

/-- Lower staffing bound per facility class (source: the clamp in
`_update_staffing_level`). -/
def staffing_lo : FacilityType → ℤ
  | .hub => 80
  | .station => 8

/-- Upper staffing bound per facility class. -/
def staffing_hi : FacilityType → ℤ
  | .hub => 350
  | .station => 35

/-- The documented bounds of §3 of the spec for the four bounded fields. -/
def InBounds (ftype : FacilityType) (s : FacilityState) : Prop :=
  staffing_lo ftype ≤ s.staffing_level ∧ s.staffing_level ≤ staffing_hi ftype ∧
  0.1 ≤ s.productivity_rate ∧ s.productivity_rate ≤ 1.3 ∧
  60.0 ≤ s.delivery_timeliness ∧ s.delivery_timeliness ≤ 99.9 ∧
  0 ≤ s.downtime_minutes ∧ s.downtime_minutes ≤ 480

instance (ftype : FacilityType) (s : FacilityState) : Decidable (InBounds ftype s) := by
  unfold InBounds
  infer_instance

theorem pytrunc_bounds (lo hi : ℤ) (q : ℚ) (h0 : 0 ≤ lo) (hlo : (lo : ℚ) ≤ q)
    (hhi : q ≤ (hi : ℚ)) : lo ≤ pytrunc q ∧ pytrunc q ≤ hi := by
  have hq : 0 ≤ q := le_trans (by exact_mod_cast h0) hlo
  rw [pytrunc_eq_floor q hq]
  refine ⟨Int.le_floor.mpr hlo, ?_⟩
  have := (Int.floor_le q).trans hhi
  exact_mod_cast this

theorem pytrunc_hub_clamp (x : ℚ) :
    (80 : ℤ) ≤ pytrunc (max 80 (min 350 x)) ∧
    pytrunc (max 80 (min 350 x)) ≤ (350 : ℤ) := by
  have h1 : (80 : ℚ) ≤ max 80 (min 350 x) := le_max_left _ _
  have h2 : max (80 : ℚ) (min 350 x) ≤ 350 := max_le (by norm_num) (min_le_left _ _)
  have hq : (0 : ℚ) ≤ max 80 (min 350 x) := by linarith
  rw [pytrunc_eq_floor _ hq]
  refine ⟨Int.le_floor.mpr (by exact_mod_cast h1), ?_⟩
  have := (Int.floor_le (max (80 : ℚ) (min 350 x))).trans h2
  exact_mod_cast this

theorem pytrunc_station_clamp (x : ℚ) :
    (8 : ℤ) ≤ pytrunc (max 8 (min 35 x)) ∧
    pytrunc (max 8 (min 35 x)) ≤ (35 : ℤ) := by
  have h1 : (8 : ℚ) ≤ max 8 (min 35 x) := le_max_left _ _
  have h2 : max (8 : ℚ) (min 35 x) ≤ 35 := max_le (by norm_num) (min_le_left _ _)
  have hq : (0 : ℚ) ≤ max 8 (min 35 x) := by linarith
  rw [pytrunc_eq_floor _ hq]
  refine ⟨Int.le_floor.mpr (by exact_mod_cast h1), ?_⟩
  have := (Int.floor_le (max (8 : ℚ) (min 35 x))).trans h2
  exact_mod_cast this

theorem update_staffing_level_staffing_bounds (ftype : FacilityType)
    (r : StaffRand) (h : ℚ) (s : FacilityState)
    (hlo : staffing_lo ftype ≤ s.staffing_level)
    (hhi : s.staffing_level ≤ staffing_hi ftype) :
    staffing_lo ftype ≤ (update_staffing_level ftype r h s).staffing_level ∧
    (update_staffing_level ftype r h s).staffing_level ≤ staffing_hi ftype := by
  unfold update_staffing_level
  dsimp only
  by_cases ht : s.staffing_trend ≠ 0
  · rw [if_pos ht]
    cases ftype
    · rw [if_pos rfl]
      exact pytrunc_hub_clamp _
    · rw [if_neg (by decide)]
      exact pytrunc_station_clamp _
  · rw [if_neg ht]
    split_ifs <;> exact ⟨hlo, hhi⟩

theorem update_productivity_bounds (ftype : FacilityType) (h : ℚ)
    (s : FacilityState) :
    0.1 ≤ (update_productivity ftype h s).productivity_rate ∧
    (update_productivity ftype h s).productivity_rate ≤ 1.3 := by
  rw [update_productivity_eq]
  exact ⟨le_max_left _ _, max_le (by norm_num) (min_le_left _ _)⟩

theorem update_timeliness_bounds (ftype : FacilityType) (h : ℚ)
    (s : FacilityState) :
    60.0 ≤ (update_timeliness ftype h s).delivery_timeliness ∧
    (update_timeliness ftype h s).delivery_timeliness ≤ 99.9 := by
  rw [update_timeliness_eq]
  exact ⟨le_max_left _ _, max_le (by norm_num) (min_le_left _ _)⟩

theorem update_downtime_bounds (h : ℚ) (s : FacilityState) (hh : 0 ≤ h)
    (hlo : 0 ≤ s.downtime_minutes) (hhi : s.downtime_minutes ≤ 480) :
    0 ≤ (update_downtime h s).downtime_minutes ∧
    (update_downtime h s).downtime_minutes ≤ 480 := by
  rw [update_downtime_def]
  split_ifs
  · exact ⟨le_min (by norm_num)
      (add_nonneg hlo (pytrunc_nonneg _ (by positivity))),
      min_le_left _ _⟩
  · refine ⟨le_max_left _ _, max_le (by norm_num) ?_⟩
    exact le_trans (sub_le_self _ (pytrunc_nonneg _ (by positivity))) hhi
  · exact ⟨hlo, hhi⟩

theorem update_preserves_InBounds (ftype : FacilityType) (r : UpdateRand)
    (h : ℚ) (s : FacilityState) (hh : 0 ≤ h) (hs : InBounds ftype s) :
    InBounds ftype (update_facility_state ftype r h s) := by
  obtain ⟨h1, h2, h3, h4, h5, h6, h7, h8⟩ := hs
  unfold update_facility_state
  have hstage_lo : staffing_lo ftype ≤ (cooldown_equipment_stage r h s).staffing_level := by
    rw [cooldown_equipment_stage_staffing]; exact h1
  have hstage_hi : (cooldown_equipment_stage r h s).staffing_level ≤ staffing_hi ftype := by
    rw [cooldown_equipment_stage_staffing]; exact h2
  have hstaff := update_staffing_level_staffing_bounds ftype r.staff h
    (cooldown_equipment_stage r h s) hstage_lo hstage_hi
  have hprod := update_productivity_bounds ftype h
    (update_staffing_level ftype r.staff h (cooldown_equipment_stage r h s))
  have htim := update_timeliness_bounds ftype h
    (update_productivity ftype h
      (update_staffing_level ftype r.staff h (cooldown_equipment_stage r h s)))
  have hdown := update_downtime_bounds h
    (update_timeliness ftype h
      (update_productivity ftype h
        (update_staffing_level ftype r.staff h (cooldown_equipment_stage r h s))))
    hh (by simp [h7]) (by simp [h8])
  unfold InBounds
  refine ⟨?_, ?_, ?_, ?_, ?_, ?_, hdown.1, hdown.2⟩ <;>
    simp [hstaff.1, hstaff.2, hprod.1, hprod.2, htim.1, htim.2]

theorem initialize_InBounds (ftype : FacilityType) (r : InitRand)
    (hr : InitRand.WF ftype r) : InBounds ftype (initialize_facility_state r) := by
  obtain ⟨hranges, _⟩ := hr
  cases ftype <;>
    obtain ⟨a1, a2, a3, a4, a5, a6⟩ := hranges <;>
    refine ⟨?_, ?_, ?_, ?_, ?_, ?_, ?_, ?_⟩ <;>
    simp [initialize_facility_state, staffing_lo, staffing_hi] <;>
    first
      | omega
      | linarith

theorem foldl_preserves_InBounds (ftype : FacilityType) :
    ∀ (steps : List (UpdateRand × ℚ)) (s : FacilityState), InBounds ftype s →
      (∀ p ∈ steps, 0 ≤ p.2) →
      InBounds ftype (steps.foldl
        (fun s p => update_facility_state ftype p.1 p.2 s) s) := by
  intro steps
  induction steps with
  | nil => intro s hs _; exact hs
  | cons p rest ih =>
      intro s hs hsteps
      rw [List.foldl_cons]
      exact ih _
        (update_preserves_InBounds ftype p.1 p.2 s
          (hsteps p (List.mem_cons_self p rest)) hs)
        (fun q hq => hsteps q (List.mem_cons_of_mem p hq))

/-- C2: starting from any cold-start initial state (with draws in the ranges
the initializer uses) and applying any sequence of `_update_facility_state`
calls with arbitrary non-negative elapsed hours, `staffing_level` stays within
[80,350] for hubs and [8,35] for stations, `productivity_rate` within
[0.1,1.3], `delivery_timeliness` within [60.0,99.9] and `downtime_minutes`
within [0,480]. -/
theorem bounds_invariant (ftype : FacilityType) (r0 : InitRand)
    (hr0 : InitRand.WF ftype r0) (steps : List (UpdateRand × ℚ))
    (hsteps : ∀ p ∈ steps, 0 ≤ p.2) :
    InBounds ftype (steps.foldl
      (fun s p => update_facility_state ftype p.1 p.2 s)
      (initialize_facility_state r0)) :=
  foldl_preserves_InBounds ftype steps (initialize_facility_state r0)
    (initialize_InBounds ftype r0 hr0) hsteps

/-- Concrete instantiation of `bounds_invariant`: a station initialized from
in-range draws stays in bounds after a one-hour update. -/
theorem bounds_invariant_witness :
    InBounds .station
      (([(⟨⟨1, 0, 4, 1, 24, 12, 2⟩, ⟨1, 0⟩⟩, (1 : ℚ))] : List (UpdateRand × ℚ)).foldl
        (fun s p => update_facility_state .station p.1 p.2 s)
        (initialize_facility_state ⟨20, 0.9, 95, .operational⟩)) :=
  bounds_invariant .station ⟨20, 0.9, 95, .operational⟩
    (by constructor <;> norm_num)
    [(⟨⟨1, 0, 4, 1, 24, 12, 2⟩, ⟨1, 0⟩⟩, (1 : ℚ))]
    (by intro p hp; simp at hp; rw [hp]; norm_num)

/-! ### C1: alert deduplication -/

/-- A facility row whose latest metrics report Down equipment. -/
def downRow : FacilityRow :=
  { id := 1
    equipment_status := some .down
    productivity_rate := none
    max_capacity := 100
    current_load := 0 }

/-- An unresolved `equipment_down` alert for facility 1 created two hours ago. -/
def staleAlert : AlertRecord :=
  { facility_id := 1
    alert_type := .equipment_down
    severity := .critical
    resolved := false
    age_hours := 2 }

/-- C1 as stated is false: `CHECK_EXISTING_ALERT` only looks at unresolved
alerts created within the last hour (`created_at > datetime('now','-1 hour')`
with the default `hours=1`), so an unresolved `equipment_down` alert that is
two hours old does not block a new insert, and the equipment check pass leaves
two unresolved alerts for the same `(facility_id, alert_type)` pair. -/
theorem alert_dedup_counterexample :
    countUnresolved (check_equipment_alerts [downRow] [staleAlert]) 1
      .equipment_down = 2 := by
  decide

/-- The invariant that actually survives the alert passes: at most one
unresolved alert per `(facility_id, alert_type)` pair, and every unresolved
alert is younger than the one-hour deduplication window. -/
def AlertInvariant (ledger : List AlertRecord) : Prop :=
  (∀ fid t, countUnresolved ledger fid t ≤ 1) ∧
  (∀ a ∈ ledger, a.resolved = false → a.age_hours < 1)

theorem countUnresolved_append (l1 l2 : List AlertRecord) (fid : ℕ)
    (t : AlertType) :
    countUnresolved (l1 ++ l2) fid t
      = countUnresolved l1 fid t + countUnresolved l2 fid t := by
  simp [countUnresolved, List.filter_append]

theorem countUnresolved_insert (ledger : List AlertRecord) (fid : ℕ)
    (t : AlertType) (sev : Severity) (fid' : ℕ) (t' : AlertType) :
    countUnresolved (insert_alert ledger fid t sev) fid' t'
      = countUnresolved ledger fid' t'
        + (if fid = fid' ∧ t = t' then 1 else 0) := by
  rw [insert_alert, countUnresolved_append]
  congr 1
  by_cases h1 : fid = fid' <;> by_cases h2 : t = t' <;>
    simp [countUnresolved, h1, h2]

theorem countUnresolved_eq_zero_of_not_exists (ledger : List AlertRecord)
    (fid : ℕ) (t : AlertType)
    (hage : ∀ a ∈ ledger, a.resolved = false → a.age_hours < 1)
    (hno : check_existing_alert ledger fid t 1 = false) :
    countUnresolved ledger fid t = 0 := by
  rw [countUnresolved, List.length_eq_zero, List.filter_eq_nil]
  intro a ha hmatch
  simp only [Bool.and_eq_true, beq_iff_eq, Bool.not_eq_true'] at hmatch
  obtain ⟨⟨hfid, htype⟩, hres⟩ := hmatch
  have hlt : a.age_hours < 1 := hage a ha hres
  rw [check_existing_alert, List.any_eq_false] at hno
  exact hno a ha (by simp [hfid, htype, hres, hlt])

theorem length_filter_map_le {α : Type} (f : α → α) (p : α → Bool)
    (hp : ∀ a, p (f a) = true → p a = true) (l : List α) :
    ((l.map f).filter p).length ≤ (l.filter p).length := by
  induction l with
  | nil => simp
  | cons a l ih =>
      simp only [List.map_cons, List.filter_cons]
      by_cases hfa : p (f a) = true
      · rw [if_pos hfa, if_pos (hp a hfa)]
        simpa using ih
      · rw [if_neg hfa]
        split_ifs
        · exact le_trans ih (by simp)
        · exact ih

theorem countUnresolved_resolve_le (ledger : List AlertRecord) (fid fid' : ℕ)
    (t' : AlertType) :
    countUnresolved (resolve_equipment_alerts_for_facility ledger fid) fid' t'
      ≤ countUnresolved ledger fid' t' := by
  apply length_filter_map_le
  intro a hpa
  by_cases hc : a.facility_id = fid ∧
      (a.alert_type = .equipment_down ∨ a.alert_type = .equipment_maintenance) ∧
      a.resolved = false
  · simp [hc] at hpa
  · simp [hc] at hpa ⊢
    exact hpa

theorem resolve_preserves_AlertInvariant (ledger : List AlertRecord) (fid : ℕ)
    (hinv : AlertInvariant ledger) :
    AlertInvariant (resolve_equipment_alerts_for_facility ledger fid) := by
  constructor
  · intro fid' t'
    exact le_trans (countUnresolved_resolve_le ledger fid fid' t') (hinv.1 fid' t')
  · intro a ha hres
    rw [resolve_equipment_alerts_for_facility] at ha
    obtain ⟨b, hb, rfl⟩ := List.mem_map.mp ha
    by_cases hc : b.facility_id = fid ∧
        (b.alert_type = .equipment_down ∨ b.alert_type = .equipment_maintenance) ∧
        b.resolved = false
    · simp [hc] at hres
    · simp only [if_neg hc] at hres ⊢
      exact hinv.2 b hb hres

theorem guarded_insert_preserves (ledger : List AlertRecord) (fid : ℕ)
    (t : AlertType) (sev : Severity) (hinv : AlertInvariant ledger) :
    AlertInvariant
      (if check_existing_alert ledger fid t 1 then ledger
       else insert_alert ledger fid t sev) := by
  split_ifs with hex
  · exact hinv
  · have hfalse : check_existing_alert ledger fid t 1 = false :=
      Bool.not_eq_true _ ▸ (by simpa using hex)
    constructor
    · intro fid' t'
      rw [countUnresolved_insert]
      by_cases hmatch : fid = fid' ∧ t = t'
      · rw [if_pos hmatch]
        obtain ⟨rfl, rfl⟩ := hmatch
        rw [countUnresolved_eq_zero_of_not_exists ledger fid t hinv.2 hfalse]
      · rw [if_neg hmatch]
        simpa using hinv.1 fid' t'
    · intro a ha hres
      rcases List.mem_append.mp ha with h | h
      · exact hinv.2 a h hres
      · simp only [List.mem_singleton] at h
        rw [h]
        norm_num

theorem check_equipment_step_preserves (ledger : List AlertRecord)
    (f : FacilityRow) (hinv : AlertInvariant ledger) :
    AlertInvariant (check_equipment_step ledger f) := by
  unfold check_equipment_step
  rcases hst : f.equipment_status with _ | st
  · exact hinv
  · cases st
    · exact resolve_preserves_AlertInvariant ledger f.id hinv
    · exact guarded_insert_preserves ledger f.id .equipment_maintenance .warning hinv
    · exact guarded_insert_preserves ledger f.id .equipment_down .critical hinv
    · exact hinv

theorem check_productivity_step_preserves (ledger : List AlertRecord)
    (f : FacilityRow) (hinv : AlertInvariant ledger) :
    AlertInvariant (check_productivity_step ledger f) := by
  unfold check_productivity_step
  rcases f.productivity_rate with _ | p
  · exact hinv
  · dsimp only
    by_cases h1 : p < 0.7
    · rw [if_pos h1]
      exact guarded_insert_preserves ledger f.id .low_productivity .warning hinv
    · rw [if_neg h1]
      exact hinv

theorem check_capacity_step_preserves_fst (acc : List AlertRecord × List ℕ)
    (f : FacilityRow) (hinv : AlertInvariant acc.1) :
    AlertInvariant (check_capacity_step acc f).1 := by
  unfold check_capacity_step
  dsimp only
  by_cases h1 : 0 < f.max_capacity
  · rw [if_pos h1]
    by_cases h2 : (0.9 : ℚ) < (f.current_load : ℚ) / (f.max_capacity : ℚ)
    · rw [if_pos h2]
      by_cases h3 : check_existing_alert acc.1 f.id .high_capacity
      · rw [if_pos h3]
        exact hinv
      · rw [if_neg h3]
        have := guarded_insert_preserves acc.1 f.id .high_capacity .warning hinv
        rwa [if_neg h3] at this
    · rw [if_neg h2]
      exact hinv
  · rw [if_neg h1]
    exact hinv

theorem sync_alerts_step_preserves (ledger : List AlertRecord)
    (f : FacilityRow) (hinv : AlertInvariant ledger) :
    AlertInvariant (sync_alerts_step ledger f) :=
  check_productivity_step_preserves _ f (check_equipment_step_preserves ledger f hinv)

theorem foldl_preserves_AlertInvariant
    (step : List AlertRecord → FacilityRow → List AlertRecord)
    (hstep : ∀ l f, AlertInvariant l → AlertInvariant (step l f)) :
    ∀ (facilities : List FacilityRow) (ledger : List AlertRecord),
      AlertInvariant ledger → AlertInvariant (facilities.foldl step ledger) := by
  intro facilities
  induction facilities with
  | nil => intro ledger h; exact h
  | cons f rest ih =>
      intro ledger h
      rw [List.foldl_cons]
      exact ih (step ledger f) (hstep ledger f h)

theorem capacity_foldl_preserves (facilities : List FacilityRow) :
    ∀ (acc : List AlertRecord × List ℕ), AlertInvariant acc.1 →
      AlertInvariant (facilities.foldl check_capacity_step acc).1 := by
  induction facilities with
  | nil => intro acc h; exact h
  | cons f rest ih =>
      intro acc h
      rw [List.foldl_cons]
      exact ih (check_capacity_step acc f) (check_capacity_step_preserves_fst acc f h)

/-- C1 (amended): `CHECK_EXISTING_ALERT` scopes deduplication to unresolved
alerts created within the last hour (default `hours=1`), so the invariant the
alert-opening paths actually preserve is: if every `(facility_id, alert_type)`
pair has at most one unresolved alert and every unresolved alert is younger
than one hour, then after a periodic `_check_for_alerts` pass or a startup
`sync_alerts_with_current_data` pass this still holds. An unresolved alert
older than one hour does not block a duplicate (see the counterexample). -/
theorem alert_dedup_invariant (facilities : List FacilityRow)
    (ledger : List AlertRecord) (hinv : AlertInvariant ledger) :
    AlertInvariant (check_for_alerts facilities ledger) ∧
    AlertInvariant (sync_alerts_with_current_data facilities ledger) := by
  constructor
  · unfold check_for_alerts check_capacity_alerts check_equipment_alerts
      check_productivity_alerts
    apply capacity_foldl_preserves
    apply foldl_preserves_AlertInvariant _ check_equipment_step_preserves
    apply foldl_preserves_AlertInvariant _ check_productivity_step_preserves
    exact hinv
  · exact foldl_preserves_AlertInvariant _ sync_alerts_step_preserves
      facilities ledger hinv

/-- Concrete instantiation of `alert_dedup_invariant`: starting from an empty
ledger, one pass over a Down facility keeps at most one unresolved alert per
pair. -/
theorem alert_dedup_invariant_witness :
    AlertInvariant (check_for_alerts [downRow] []) ∧
    AlertInvariant (sync_alerts_with_current_data [downRow] []) := by
  apply alert_dedup_invariant
  constructor
  · intro fid t
    simp [countUnresolved]
  · intro a ha
    simp at ha

/-! ### C5: equipment alerts resolved when Operational -/

/-- The sub-ledger of alerts belonging to one facility. -/
def alerts_for (ledger : List AlertRecord) (fid : ℕ) : List AlertRecord :=
  ledger.filter fun a => a.facility_id == fid

/-- Number of equipment_down / equipment_maintenance alerts (resolved or not)
a facility has in the ledger. -/
def equipment_alert_count (ledger : List AlertRecord) (fid : ℕ) : ℕ :=
  ((alerts_for ledger fid).filter fun a =>
    a.alert_type == AlertType.equipment_down ||
      a.alert_type == AlertType.equipment_maintenance).length

theorem filter_map_eq_of_fix {α : Type} (h : α → α) (p : α → Bool)
    (hfix : ∀ a, p a = true → h a = a) (hpres : ∀ a, p (h a) = p a)
    (l : List α) : (l.map h).filter p = l.filter p := by
  induction l with
  | nil => rfl
  | cons a l ih =>
      simp only [List.map_cons, List.filter_cons, hpres a]
      by_cases hpa : p a = true
      · rw [if_pos hpa, if_pos hpa, hfix a hpa, ih]
      · rw [if_neg hpa, if_neg hpa, ih]

theorem filter_map_comm {α : Type} (h : α → α) (p : α → Bool)
    (hpres : ∀ a, p (h a) = p a) (l : List α) :
    (l.map h).filter p = (l.filter p).map h := by
  induction l with
  | nil => rfl
  | cons a l ih =>
      simp only [List.map_cons, List.filter_cons, hpres a]
      by_cases hpa : p a = true
      · rw [if_pos hpa, if_pos hpa, List.map_cons, ih]
      · rw [if_neg hpa, if_neg hpa, ih]

theorem alerts_for_insert_other (ledger : List AlertRecord) (fid' : ℕ)
    (t : AlertType) (sev : Severity) (fid : ℕ) (hne : fid' ≠ fid) :
    alerts_for (insert_alert ledger fid' t sev) fid = alerts_for ledger fid := by
  simp [alerts_for, insert_alert, List.filter_append, hne]

theorem alerts_for_resolve_other (ledger : List AlertRecord) (g fid : ℕ)
    (hne : g ≠ fid) :
    alerts_for (resolve_equipment_alerts_for_facility ledger g) fid
      = alerts_for ledger fid := by
  unfold alerts_for resolve_equipment_alerts_for_facility
  apply filter_map_eq_of_fix
  · intro a hpa
    have hfid : a.facility_id = fid := by simpa using hpa
    rw [if_neg]
    rintro ⟨h1, -, -⟩
    exact hne (h1.symm.trans hfid)
  · intro a
    by_cases hc : a.facility_id = g ∧
        (a.alert_type = .equipment_down ∨ a.alert_type = .equipment_maintenance) ∧
        a.resolved = false
    · rw [if_pos hc]
    · rw [if_neg hc]

theorem alerts_for_step_other (ledger : List AlertRecord) (g : FacilityRow)
    (fid : ℕ) (hne : g.id ≠ fid) :
    alerts_for (check_equipment_step ledger g) fid = alerts_for ledger fid := by
  unfold check_equipment_step
  rcases g.equipment_status with _ | st
  · rfl
  · cases st <;> dsimp only
    · exact alerts_for_resolve_other ledger g.id fid hne
    · split_ifs
      · rfl
      · exact alerts_for_insert_other ledger g.id .equipment_maintenance .warning fid hne
    · split_ifs
      · rfl
      · exact alerts_for_insert_other ledger g.id .equipment_down .critical fid hne

theorem alerts_for_equipment_foldl (fid : ℕ) :
    ∀ (xs : List FacilityRow) (ledger : List AlertRecord),
      (∀ g ∈ xs, g.id ≠ fid) →
      alerts_for (xs.foldl check_equipment_step ledger) fid
        = alerts_for ledger fid := by
  intro xs
  induction xs with
  | nil => intro ledger _; rfl
  | cons g rest ih =>
      intro ledger hne
      rw [List.foldl_cons,
        ih _ (fun q hq => hne q (List.mem_cons_of_mem g hq)),
        alerts_for_step_other ledger g fid (hne g (List.mem_cons_self g rest))]

theorem resolve_resolves (ledger : List AlertRecord) (fid : ℕ) :
    ∀ a ∈ resolve_equipment_alerts_for_facility ledger fid,
      a.facility_id = fid →
      (a.alert_type = .equipment_down ∨ a.alert_type = .equipment_maintenance) →
      a.resolved = true := by
  intro a ha hfid htypes
  rw [resolve_equipment_alerts_for_facility] at ha
  obtain ⟨b, hb, rfl⟩ := List.mem_map.mp ha
  by_cases hc : b.facility_id = fid ∧
      (b.alert_type = .equipment_down ∨ b.alert_type = .equipment_maintenance) ∧
      b.resolved = false
  · simp [hc]
  · rw [if_neg hc] at hfid htypes ⊢
    cases hbres : b.resolved
    · exact absurd ⟨hfid, htypes, hbres⟩ hc
    · rfl

theorem equipment_alert_count_resolve (ledger : List AlertRecord) (fid : ℕ) :
    equipment_alert_count (resolve_equipment_alerts_for_facility ledger fid) fid
      = equipment_alert_count ledger fid := by
  unfold equipment_alert_count alerts_for resolve_equipment_alerts_for_facility
  rw [filter_map_comm, filter_map_comm, List.length_map]
  · intro a
    by_cases hc : a.facility_id = fid ∧
        (a.alert_type = .equipment_down ∨ a.alert_type = .equipment_maintenance) ∧
        a.resolved = false
    · rw [if_pos hc]
    · rw [if_neg hc]
  · intro a
    by_cases hc : a.facility_id = fid ∧
        (a.alert_type = .equipment_down ∨ a.alert_type = .equipment_maintenance) ∧
        a.resolved = false
    · rw [if_pos hc]
    · rw [if_neg hc]

/-- C5: in a `_check_equipment_alerts` pass over facilities with distinct ids,
a facility whose equipment_status is Operational gets every
equipment_down/equipment_maintenance alert of its marked resolved, and no new
equipment alert is opened for it (its equipment-alert count is unchanged). -/
theorem operational_resolves_alerts (facilities : List FacilityRow)
    (ledger : List AlertRecord) (f : FacilityRow)
    (hnodup : (facilities.map fun g => g.id).Nodup)
    (hmem : f ∈ facilities)
    (hop : f.equipment_status = some .operational) :
    (∀ a ∈ check_equipment_alerts facilities ledger,
        a.facility_id = f.id →
        (a.alert_type = .equipment_down ∨ a.alert_type = .equipment_maintenance) →
        a.resolved = true) ∧
    equipment_alert_count (check_equipment_alerts facilities ledger) f.id
      = equipment_alert_count ledger f.id := by
  obtain ⟨pre, post, rfl⟩ := List.append_of_mem hmem
  have hmap : ((pre.map fun g => g.id) ++ f.id :: (post.map fun g => g.id)).Nodup := by
    simpa using hnodup
  have hmid := List.nodup_middle.mp hmap
  have hnotmem := (List.nodup_cons.mp hmid).1
  have hpre : ∀ g ∈ pre, g.id ≠ f.id := by
    intro g hg heq
    exact hnotmem (List.mem_append.mpr (Or.inl (List.mem_map.mpr ⟨g, hg, heq⟩)))
  have hpost : ∀ g ∈ post, g.id ≠ f.id := by
    intro g hg heq
    exact hnotmem (List.mem_append.mpr (Or.inr (List.mem_map.mpr ⟨g, hg, heq⟩)))
  unfold check_equipment_alerts
  rw [List.foldl_append, List.foldl_cons]
  have hstep : check_equipment_step (pre.foldl check_equipment_step ledger) f
      = resolve_equipment_alerts_for_facility
          (pre.foldl check_equipment_step ledger) f.id := by
    unfold check_equipment_step
    rw [hop]
  rw [hstep]
  have hpre_eq : alerts_for (pre.foldl check_equipment_step ledger) f.id
      = alerts_for ledger f.id :=
    alerts_for_equipment_foldl f.id pre ledger hpre
  have hpost_eq : alerts_for
      (post.foldl check_equipment_step
        (resolve_equipment_alerts_for_facility
          (pre.foldl check_equipment_step ledger) f.id)) f.id
      = alerts_for
          (resolve_equipment_alerts_for_facility
            (pre.foldl check_equipment_step ledger) f.id) f.id :=
    alerts_for_equipment_foldl f.id post _ hpost
  constructor
  · intro a ha hfid htypes
    have hmem2 : a ∈ alerts_for
        (post.foldl check_equipment_step
          (resolve_equipment_alerts_for_facility
            (pre.foldl check_equipment_step ledger) f.id)) f.id := by
      simp [alerts_for, List.mem_filter, ha, hfid]
    rw [hpost_eq] at hmem2
    have ha2 := (List.mem_filter.mp hmem2).1
    exact resolve_resolves (pre.foldl check_equipment_step ledger) f.id a ha2 hfid htypes
  · have e1 : equipment_alert_count
        (post.foldl check_equipment_step
          (resolve_equipment_alerts_for_facility
            (pre.foldl check_equipment_step ledger) f.id)) f.id
        = equipment_alert_count
            (resolve_equipment_alerts_for_facility
              (pre.foldl check_equipment_step ledger) f.id) f.id := by
      unfold equipment_alert_count
      rw [hpost_eq]
    have e2 := equipment_alert_count_resolve
      (pre.foldl check_equipment_step ledger) f.id
    have e3 : equipment_alert_count (pre.foldl check_equipment_step ledger) f.id
        = equipment_alert_count ledger f.id := by
      unfold equipment_alert_count
      rw [hpre_eq]
    exact e1.trans (e2.trans e3)

/-- A facility row whose latest metrics report Operational equipment. -/
def operationalRow : FacilityRow :=
  { id := 1
    equipment_status := some .operational
    productivity_rate := none
    max_capacity := 100
    current_load := 0 }

/-- Concrete instantiation of `operational_resolves_alerts`: the stale
unresolved down-alert of facility 1 is resolved by the pass and its
equipment-alert count stays 1. -/
theorem operational_resolves_alerts_witness :
    (∀ a ∈ check_equipment_alerts [operationalRow] [staleAlert],
        a.facility_id = operationalRow.id →
        (a.alert_type = .equipment_down ∨ a.alert_type = .equipment_maintenance) →
        a.resolved = true) ∧
    equipment_alert_count (check_equipment_alerts [operationalRow] [staleAlert])
        operationalRow.id
      = equipment_alert_count [staleAlert] operationalRow.id :=
  operational_resolves_alerts [operationalRow] [staleAlert] operationalRow
    (by decide) (List.mem_cons_self _ _) rfl
